import Mathlib

/-!
Verification of the Markdown-to-presentation pipeline
(`generate_presentations.py`) and the output verifier
(`verify_presentations.py`).

Python strings are modelled as Lean `String`, with the handful of Python
string primitives the scripts use (`startswith`, `strip`, slicing,
`replace`, `in`) re-expressed over the underlying character list so that
they are both executable and amenable to proof.
-/

set_option autoImplicit false

namespace DotnetPresentations

namespace Py

/-- Models Python `s.startswith(pat)`. -/
def startsWith (s pat : String) : Bool :=
  pat.data.isPrefixOf s.data

/-- Models Python `s.strip()`: drop whitespace from both ends. -/
def strip (s : String) : String :=
  ⟨((s.data.dropWhile Char.isWhitespace).reverse.dropWhile Char.isWhitespace).reverse⟩

/-- Models Python slicing `s[n:]` (character-based). -/
def drop (s : String) (n : Nat) : String :=
  ⟨s.data.drop n⟩

/-- Models Python slicing `s[:n]` (character-based). -/
def take (s : String) (n : Nat) : String :=
  ⟨s.data.take n⟩

/-- Models Python `len(s)` (character count). -/
def len (s : String) : Nat :=
  s.data.length

/-- Fuelled worker for `Py.replace`: replaces occurrences of `pat`
left-to-right, non-overlapping, exactly as Python `str.replace`.
The fuel is only a termination device; `fuel ≥ length of the list`
always holds at the call site. -/
def replaceAux (pat rep : List Char) : Nat → List Char → List Char
  | _, [] => []
  | 0, l => l
  | fuel + 1, c :: rest =>
    if pat.isPrefixOf (c :: rest) then
      rep ++ replaceAux pat rep fuel ((c :: rest).drop pat.length)
    else
      c :: replaceAux pat rep fuel rest

/-- Models Python `s.replace(pat, rep)`. -/
def replace (s pat rep : String) : String :=
  ⟨replaceAux pat.data rep.data s.data.length s.data⟩

/-- Fuelled worker for `Py.split`: splits at each left-to-right,
non-overlapping occurrence of `sep`, exactly as Python `str.split(sep)`
with a non-empty separator.  `acc` holds the current piece reversed.
The fuel is only a termination device; `fuel ≥ length of the list`
always holds at the call site. -/
def splitAux (sep : List Char) : Nat → List Char → List Char → List (List Char)
  | _, acc, [] => [acc.reverse]
  | 0, acc, l => [acc.reverse ++ l]
  | fuel + 1, acc, c :: rest =>
    if sep.isPrefixOf (c :: rest) then
      acc.reverse :: splitAux sep fuel [] ((c :: rest).drop sep.length)
    else
      splitAux sep fuel (c :: acc) rest

/-- Models Python `s.split(sep)` for a non-empty separator. -/
def split (s sep : String) : List String :=
  (splitAux sep.data s.data.length [] s.data).map (fun l => ⟨l⟩)

/-- Models Python `pat in s` (substring test), expressed through
`split`: `pat` occurs in `s` iff splitting on it yields at least
two pieces. -/
def containsSub (s pat : String) : Bool :=
  decide (2 ≤ (split s pat).length)

end Py

/-- One parsed section record, as built by `parse_markdown` in
`generate_presentations.py`.  `title` is `none` when the Python dict
holds `None` (possible for flushes before any `## ` header); `parent`
is `none` on level-1 records (the key is absent in Python) and holds
the enclosing level-1 title on level-2 records. -/
structure MdSection where
  title : Option String
  content : String
  level : Nat
  parent : Option String
deriving DecidableEq

/-- Python truthiness of the `current_section` variable: `None` and the
empty string are falsy. -/
def truthy : Option String → Bool
  | none => false
  | some s => s != ""

/-- Models `'\n'.join(lines)`. -/
def joinNL (ls : List String) : String :=
  String.intercalate "\n" ls

/-- Flush of the pending level-1 section guarded by
`if current_section:` (lines 35-40 and 87-92 of the generator). -/
def flushCur (cur : Option String) (content : List String) : List MdSection :=
  if truthy cur then [⟨cur, Py.strip (joinNL content), 1, none⟩] else []

/-- Flush of the pending content guarded by `if current_content:`
(lines 46-52 of the generator, the `### ` branch). -/
def flushContent (cur : Option String) (content : List String) : List MdSection :=
  if content.isEmpty then [] else [⟨cur, Py.strip (joinNL content), 1, none⟩]

/-- The string appended for a fenced code block (line 74 of the
generator): `'\n[CODE]\n' + '\n'.join(code_lines[:15]) + '\n[/CODE]\n'`. -/
def codeChunk (ls : List String) : String :=
  "\n[CODE]\n" ++ joinNL ls ++ "\n[/CODE]\n"

/-- Parser mode: `text` is the ordinary top of the `while` loop;
`code acc` represents being inside the inner code-fence loop
(lines 69-73) with `acc` the `code_lines` collected so far. -/
inductive PMode where
  | text
  | code (acc : List String)

/-- The line-scanning loop of `parse_markdown` (lines 30-92),
re-expressed as a single-pass state machine: the inner
code-fence `while` is represented by the `PMode.code` state. -/
def parseLoop : List String → PMode → Option String → List String → List MdSection
  | [], .text, cur, content => flushCur cur content
  | [], .code acc, cur, content =>
    flushCur cur (content ++ [codeChunk (acc.take 15)])
  | l :: rest, .code acc, cur, content =>
    if Py.startsWith l "```" then
      parseLoop rest .text cur (content ++ [codeChunk (acc.take 15)])
    else
      parseLoop rest (.code (acc ++ [l])) cur content
  | l :: rest, .text, cur, content =>
    if Py.startsWith l "## " then
      flushCur cur content ++ parseLoop rest .text (some (Py.strip (Py.drop l 3))) []
    else if Py.startsWith l "### " then
      flushContent cur content ++
        ⟨some (Py.strip (Py.drop l 4)), "", 2, cur⟩ :: parseLoop rest .text cur []
    else if Py.startsWith l "#### " then
      parseLoop rest .text cur (content ++ ["\n" ++ Py.strip (Py.drop l 5) ++ "\n"])
    else if Py.startsWith l "```" then
      parseLoop rest (.code []) cur content
    else if Py.startsWith l "- " || Py.startsWith l "* " then
      parseLoop rest .text cur (content ++ [l])
    else if Py.strip l != "" && !(Py.startsWith l "---") then
      parseLoop rest .text cur (content ++ [l])
    else
      parseLoop rest .text cur content

/-- `parse_markdown` of `generate_presentations.py`, applied to the
text of the file (the `open`/`read` of the original is I/O and is
factored out: this function receives the file content). -/
def parse_markdown (text : String) : List MdSection :=
  parseLoop (Py.split text "\n") .text none []

/-- One paragraph emitted into a slide body by `create_powerpoint`:
either a bullet at an outline level or a plain paragraph. -/
inductive SlidePara where
  | bullet (lvl : Nat) (text : String)
  | plain (text : String)
deriving DecidableEq

/-- Body of a content slide as produced by `create_powerpoint`:
the code-box path (lines 126-136), the path where `[CODE]` occurs but
the regex finds no match (text frame left cleared), or the regular
paragraph path (lines 137-160). -/
inductive SlideBody where
  | codeBox (text : String)
  | cleared
  | paras (ps : List SlidePara)
deriving DecidableEq

/-- One slide of the deck. -/
inductive Slide where
  | titleSlide (title subtitle : String)
  | contentSlide (headline : Option String) (body : SlideBody)
deriving DecidableEq

/-- Models `re.search(r'\[CODE\](.*?)\[/CODE\]', s, re.DOTALL)` and the
extraction of group 1: the text between the first `[CODE]` and the
first `[/CODE]` after it, if both occur. -/
def searchCode (s : String) : Option String :=
  match Py.split s "[CODE]" with
  | _ :: r :: rest =>
    (match Py.split (String.intercalate "[CODE]" (r :: rest)) "[/CODE]" with
     | f :: _ :: _ => some f
     | _ => none)
  | _ => none

/-- The markdown-stripping step shared by both renderers
(line 148 and lines 239/258):
`line.replace('**', '').replace('`', '').strip()`. -/
def cleanLine (line : String) : String :=
  Py.strip (Py.replace (Py.replace line "**" "") "`" "")

/-- Per-line paragraph construction of the slide renderer's regular
path (lines 148-158 of `create_powerpoint`). -/
def renderSlideLine (line : String) : SlidePara :=
  let c := cleanLine line
  if Py.startsWith c "- " || Py.startsWith c "* " then
    .bullet 0 (Py.drop c 2)
  else if Py.startsWith c "  - " || Py.startsWith c "  * " then
    .bullet 1 (Py.drop c 4)
  else
    .plain c

/-- Body of the content slide built for a level-1 section
(lines 122-160 of `create_powerpoint`). -/
def slideBody (content : String) : SlideBody :=
  if Py.containsSub content "[CODE]" then
    match searchCode content with
    | some code => .codeBox (Py.take (Py.strip code) 500)
    | none => .cleared
  else
    .paras ((((Py.split content "\n").filter (fun l => Py.strip l != "")).take 10).map
      renderSlideLine)

/-- `create_powerpoint` of `generate_presentations.py` (lines 96-161),
as the slide sequence it emits: a fixed title slide, then one content
slide per level-1 section. -/
def create_powerpoint (sections : List MdSection) : List Slide :=
  .titleSlide "Data Access Layer dengan Dapper" "Panduan Lengkap Implementasi Dapper di .NET"
    :: (sections.filter (fun s => s.level == 1)).map
        (fun s => .contentSlide s.title (slideBody s.content))

/-- Escaping applied by `create_pdf` on the plain-content path
(line 260): ampersand first, then angle brackets. -/
def escape_text_path (line : String) : String :=
  Py.replace (Py.replace (Py.replace line "&" "&amp;") "<" "&lt;") ">" "&gt;"

/-- Escaping applied by `create_pdf` on the text surrounding a
`[CODE]` sentinel region (lines 241-242): angle brackets first,
then ampersand. -/
def escape_code_path (line : String) : String :=
  Py.replace (Py.replace (Py.replace line "<" "&lt;") ">" "&gt;") "&" "&amp;"

/-- File-system view consumed by `verify_presentations.py`: for each of
the three files, `none` means the file is absent; otherwise the slide
count of the deck, the bytes of the PDF, and the text of the
documentation file. -/
structure FS where
  pptxSlides : Option Nat
  pdfBytes : Option (List Nat)
  docContent : Option String

/-- The first five bytes of a well-formed PDF: `%PDF-`. -/
def pdfMagic : List Nat := [37, 80, 68, 70, 45]

/-- The three substrings `verify_documentation` requires (line 78). -/
def required_sections : List String := ["File Presentasi", "Cara Menggunakan", "Regenerate"]

/-- `verify_powerpoint` of `verify_presentations.py` (lines 8-32):
fails when the deck is absent or has fewer than 10 slides. -/
def verify_powerpoint (fs : FS) : Bool :=
  match fs.pptxSlides with
  | none => false
  | some n => !(decide (n < 10))

/-- `verify_pdf` of `verify_presentations.py` (lines 34-59):
fails when the PDF is absent or its first five bytes are not `%PDF-`. -/
def verify_pdf (fs : FS) : Bool :=
  match fs.pdfBytes with
  | none => false
  | some bs => decide (bs.take 5 = pdfMagic)

/-- `verify_documentation` of `verify_presentations.py` (lines 61-88):
fails when the documentation file is absent or any required substring
is missing. -/
def verify_documentation (fs : FS) : Bool :=
  match fs.docContent with
  | none => false
  | some c => (required_sections.filter (fun sec => !(Py.containsSub c sec))).isEmpty

/-- `main` of `verify_presentations.py` (lines 90-114) as the process
exit code it produces: 0 when all three checks pass, 1 otherwise. -/
def verifier_main (fs : FS) : Nat :=
  if verify_powerpoint fs && verify_pdf fs && verify_documentation fs then 0 else 1

/-- Number of level-1 records in a parsed section sequence. -/
def countLevel1 (secs : List MdSection) : Nat :=
  (secs.filter (fun s => s.level == 1)).length

/-- Number of lines starting with a `## ` header marker. -/
def headerCount (lines : List String) : Nat :=
  (lines.filter (fun l => Py.startsWith l "## ")).length

/-- The lines of the fenced code block opened just before `rest`:
everything up to (excluding) the next line that starts a fence. -/
def codeBlockOf (rest : List String) : List String :=
  rest.takeWhile (fun x => !(Py.startsWith x "```"))

/-! ### Helper lemmas about the Python string primitives -/

theorem startsWith_iff (s pat : String) :
    Py.startsWith s pat = true ↔ pat.data <+: s.data := by
  simp [Py.startsWith]

theorem dropWhile_head_false {α : Type} (p : α → Bool) :
    ∀ (l : List α) (c : α) (rest : List α), l.dropWhile p = c :: rest → p c = false := by
  intro l
  induction l with
  | nil => intro c rest h; simp [List.dropWhile] at h
  | cons a l ih =>
    intro c rest h
    by_cases hpa : p a = true
    · rw [List.dropWhile_cons_of_pos hpa] at h
      exact ih c rest h
    · rw [List.dropWhile_cons_of_neg hpa] at h
      obtain ⟨rfl, -⟩ := List.cons.inj h
      exact Bool.eq_false_iff.mpr hpa

theorem strip_head_not_ws (s : String) (c : Char) (rest : List Char)
    (h : (Py.strip s).data = c :: rest) : Char.isWhitespace c = false := by
  have hsfx := List.dropWhile_suffix (l := (s.data.dropWhile Char.isWhitespace).reverse)
    Char.isWhitespace
  obtain ⟨t, ht⟩ := hsfx
  have hm : s.data.dropWhile Char.isWhitespace =
      ((s.data.dropWhile Char.isWhitespace).reverse.dropWhile Char.isWhitespace).reverse
        ++ t.reverse := by
    have := congrArg List.reverse ht
    simpa using this.symm
  have hs : (Py.strip s).data =
      ((s.data.dropWhile Char.isWhitespace).reverse.dropWhile Char.isWhitespace).reverse := rfl
  rw [hs] at h
  rw [h] at hm
  exact dropWhile_head_false Char.isWhitespace s.data c (rest ++ t.reverse) (by simpa using hm)

theorem startsWith_strip_ws_false (s pat : String) (c : Char) (ct : List Char)
    (hp : pat.data = c :: ct) (hws : Char.isWhitespace c = true) :
    Py.startsWith (Py.strip s) pat = false := by
  cases hsw : Py.startsWith (Py.strip s) pat with
  | false => rfl
  | true =>
    exfalso
    rw [startsWith_iff] at hsw
    obtain ⟨t, ht⟩ := hsw
    rw [hp] at ht
    have : (Py.strip s).data = c :: (ct ++ t) := by simpa using ht.symm
    have hcf := strip_head_not_ws s c (ct ++ t) this
    rw [hws] at hcf
    exact Bool.noConfusion hcf

theorem startsWith_conflict (s p1 p2 : String) (i : Nat) (a b : Char)
    (h1 : Py.startsWith s p1 = true) (ha : p1.data[i]? = some a)
    (hb : p2.data[i]? = some b) (hab : a ≠ b) : Py.startsWith s p2 = false := by
  cases h2 : Py.startsWith s p2 with
  | false => rfl
  | true =>
    exfalso
    rw [startsWith_iff] at h1 h2
    obtain ⟨t1, ht1⟩ := h1
    obtain ⟨t2, ht2⟩ := h2
    have hia : i < p1.data.length := by
      rcases List.getElem?_eq_some.mp ha with ⟨hlt, -⟩
      exact hlt
    have hib : i < p2.data.length := by
      rcases List.getElem?_eq_some.mp hb with ⟨hlt, -⟩
      exact hlt
    have hsa : s.data[i]? = some a := by
      rw [← ht1, List.getElem?_append, if_pos hia]; exact ha
    have hsb : s.data[i]? = some b := by
      rw [← ht2, List.getElem?_append, if_pos hib]; exact hb
    rw [hsa] at hsb
    exact hab (Option.some.inj hsb)

theorem not_h2_of_h3 (l : String) (h : Py.startsWith l "### " = true) :
    Py.startsWith l "## " = false :=
  startsWith_conflict l "### " "## " 2 '#' ' ' h (by decide) (by decide) (by decide)

theorem not_h2_of_fence (l : String) (h : Py.startsWith l "```" = true) :
    Py.startsWith l "## " = false :=
  startsWith_conflict l "```" "## " 0 '`' '#' h (by decide) (by decide) (by decide)

theorem not_h3_of_fence (l : String) (h : Py.startsWith l "```" = true) :
    Py.startsWith l "### " = false :=
  startsWith_conflict l "```" "### " 0 '`' '#' h (by decide) (by decide) (by decide)

theorem not_h4_of_fence (l : String) (h : Py.startsWith l "```" = true) :
    Py.startsWith l "#### " = false :=
  startsWith_conflict l "```" "#### " 0 '`' '#' h (by decide) (by decide) (by decide)

/-! ### Helper lemmas about the parser -/

theorem mem_flushCur {s : MdSection} {cur : Option String} {content : List String}
    (h : s ∈ flushCur cur content) : s.level = 1 := by
  unfold flushCur at h
  split at h
  · simp at h; rw [h]
  · simp at h

theorem mem_flushContent {s : MdSection} {cur : Option String} {content : List String}
    (h : s ∈ flushContent cur content) : s.level = 1 := by
  unfold flushContent at h
  split at h
  · simp at h
  · simp at h; rw [h]

theorem parseLoop_level2_content_empty :
    ∀ (lines : List String) (mode : PMode) (cur : Option String) (content : List String)
      (s : MdSection), s ∈ parseLoop lines mode cur content → s.level = 2 → s.content = "" := by
  intro lines
  induction lines with
  | nil =>
    intro mode cur content s h h2
    cases mode with
    | text =>
      exfalso
      have h1 := mem_flushCur (s := s) (h := by simpa [parseLoop] using h)
      rw [h2] at h1; exact absurd h1 (by decide)
    | code acc =>
      exfalso
      have h1 := mem_flushCur (s := s) (h := by simpa [parseLoop] using h)
      rw [h2] at h1; exact absurd h1 (by decide)
  | cons l rest ih =>
    intro mode cur content s h h2
    cases mode with
    | code acc =>
      simp only [parseLoop] at h
      split at h
      · exact ih _ _ _ s h h2
      · exact ih _ _ _ s h h2
    | text =>
      simp only [parseLoop] at h
      split at h
      · rcases List.mem_append.mp h with hf | hp
        · exfalso
          have h1 := mem_flushCur hf
          rw [h2] at h1; exact absurd h1 (by decide)
        · exact ih _ _ _ s hp h2
      · split at h
        · rcases List.mem_append.mp h with hf | hp
          · exfalso
            have h1 := mem_flushContent hf
            rw [h2] at h1; exact absurd h1 (by decide)
          · rcases List.mem_cons.mp hp with rfl | hq
            · rfl
            · exact ih _ _ _ s hq h2
        · split at h
          · exact ih _ _ _ s h h2
          · split at h
            · exact ih _ _ _ s h h2
            · split at h
              · exact ih _ _ _ s h h2
              · split at h
                · exact ih _ _ _ s h h2
                · exact ih _ _ _ s h h2

theorem countLevel1_append (a b : List MdSection) :
    countLevel1 (a ++ b) = countLevel1 a + countLevel1 b := by
  simp [countLevel1, List.filter_append]

theorem countLevel1_flushCur (cur : Option String) (content : List String) :
    countLevel1 (flushCur cur content) = if truthy cur then 1 else 0 := by
  unfold flushCur
  split <;> simp [countLevel1]

theorem parseLoop_count_text :
    ∀ (lines : List String) (cur : Option String) (content : List String),
      (∀ l ∈ lines, Py.startsWith l "### " = false) →
      (∀ l ∈ lines, Py.startsWith l "```" = false) →
      (∀ l ∈ lines, Py.startsWith l "## " = true → Py.strip (Py.drop l 3) ≠ "") →
      countLevel1 (parseLoop lines .text cur content) =
        headerCount lines + (if truthy cur then 1 else 0) := by
  intro lines
  induction lines with
  | nil =>
    intro cur content _ _ _
    simp [parseLoop, countLevel1_flushCur, headerCount]
  | cons l rest ih =>
    intro cur content h3 hf ht
    have h3l : Py.startsWith l "### " = false := h3 l (List.mem_cons_self l rest)
    have hfl : Py.startsWith l "```" = false := hf l (List.mem_cons_self l rest)
    have h3r : ∀ x ∈ rest, Py.startsWith x "### " = false :=
      fun x hx => h3 x (List.mem_cons_of_mem l hx)
    have hfr : ∀ x ∈ rest, Py.startsWith x "```" = false :=
      fun x hx => hf x (List.mem_cons_of_mem l hx)
    have htr : ∀ x ∈ rest, Py.startsWith x "## " = true → Py.strip (Py.drop x 3) ≠ "" :=
      fun x hx => ht x (List.mem_cons_of_mem l hx)
    by_cases h2 : Py.startsWith l "## " = true
    · have hnew : truthy (some (Py.strip (Py.drop l 3))) = true := by
        have := ht l (List.mem_cons_self l rest) h2
        simpa [truthy] using this
      have hcount : headerCount (l :: rest) = headerCount rest + 1 := by
        rw [headerCount, List.filter_cons, if_pos h2, List.length_cons]
        rfl
      simp only [parseLoop]
      rw [if_pos h2, countLevel1_append, countLevel1_flushCur,
        ih _ _ h3r hfr htr, hnew, hcount, if_pos (rfl : true = true)]
      split <;> omega
    · have hcount : headerCount (l :: rest) = headerCount rest := by
        rw [headerCount, List.filter_cons, if_neg h2]
        rfl
      rw [hcount]
      simp only [parseLoop]
      rw [if_neg h2, if_neg (show ¬(Py.startsWith l "### " = true) by simp [h3l])]
      split
      · exact ih _ _ h3r hfr htr
      · rw [if_neg (show ¬(Py.startsWith l "```" = true) by simp [hfl])]
        split
        · exact ih _ _ h3r hfr htr
        · split
          · exact ih _ _ h3r hfr htr
          · exact ih _ _ h3r hfr htr

theorem parseLoop_code_run :
    ∀ (rest acc : List String) (cur : Option String) (content : List String),
      parseLoop rest (.code acc) cur content =
        parseLoop (rest.drop ((codeBlockOf rest).length + 1)) .text cur
          (content ++ [codeChunk ((acc ++ codeBlockOf rest).take 15)]) := by
  intro rest
  induction rest with
  | nil =>
    intro acc cur content
    simp [parseLoop, codeBlockOf]
  | cons x r ih =>
    intro acc cur content
    by_cases hx : Py.startsWith x "```" = true
    · have hblock : codeBlockOf (x :: r) = [] := by
        simp [codeBlockOf, List.takeWhile_cons, hx]
      rw [hblock]
      simp only [parseLoop]
      rw [if_pos hx]
      simp
    · have hblock : codeBlockOf (x :: r) = x :: codeBlockOf r := by
        simp [codeBlockOf, List.takeWhile_cons, hx]
      rw [hblock]
      simp only [parseLoop]
      rw [if_neg hx, ih (acc ++ [x]) cur content]
      simp only [List.length_cons, List.drop_succ_cons]
      rw [List.append_assoc]
      rfl

/-! ### Claim theorems -/

/-- C1 (counterexample): the number of level-1 Section records does not,
in general, equal the number of `## ` header lines: the two-line input
`x` / `### S` has no `## ` line at all, yet the parser emits one level-1
record (the pending content is flushed with a `None` title when the
sub-header is reached). -/
theorem level1_count_counterexample :
    countLevel1 (parse_markdown "x\n### S") = 1 ∧
    headerCount (Py.split "x\n### S" "\n") = 0 := by
  decide

/-- C1 (amended): for input whose lines contain no `### ` sub-header
lines and no code-fence lines, and in which every `## ` header line has
a non-empty title after stripping, the number of level-1 Section records
returned by the parser equals the number of lines starting with `## `. -/
theorem level1_count_eq_header_count (text : String)
    (h3 : ∀ l ∈ Py.split text "\n", Py.startsWith l "### " = false)
    (hf : ∀ l ∈ Py.split text "\n", Py.startsWith l "```" = false)
    (ht : ∀ l ∈ Py.split text "\n", Py.startsWith l "## " = true →
      Py.strip (Py.drop l 3) ≠ "") :
    countLevel1 (parse_markdown text) = headerCount (Py.split text "\n") := by
  unfold parse_markdown
  rw [parseLoop_count_text _ _ _ h3 hf ht]
  simp [truthy]

theorem level1_count_eq_header_count_witness :
    headerCount (Py.split "## A\nx\n## B" "\n") = 2 ∧
    countLevel1 (parse_markdown "## A\nx\n## B") = headerCount (Py.split "## A\nx\n## B" "\n") :=
  ⟨by decide, level1_count_eq_header_count "## A\nx\n## B" (by decide) (by decide) (by decide)⟩

/-- C2 (counterexample): parsing the six-line document does not return
the three records the claim lists — it returns four records (the text
after the sub-header is flushed into a duplicate record titled `Intro`,
so `More text` is not attached to `Next`). -/
theorem roundtrip_parse_counterexample :
    parse_markdown "## Intro\nSome text\n### Sub\nMore text\n## Next\nFinal" ≠
      [⟨some "Intro", "Some text", 1, none⟩,
       ⟨some "Sub", "", 2, some "Intro"⟩,
       ⟨some "Next", "More text\nFinal", 1, none⟩] ∧
    (parse_markdown "## Intro\nSome text\n### Sub\nMore text\n## Next\nFinal").length = 4 := by
  decide

/-- C2 (amended): parsing the six-line document `## Intro` / `Some text`
/ `### Sub` / `More text` / `## Next` / `Final` returns exactly four
Section records: `{Intro, "Some text", 1}`, `{Sub, "", 2, parent Intro}`,
a second `{Intro, "More text", 1}` produced when the `## Next` header
flushes the pending content under the still-current title `Intro`, and
`{Next, "Final", 1}`.  The body text `More text` is attached to the
duplicate `Intro` record, not to `Next`. -/
theorem roundtrip_parse_four_records :
    parse_markdown "## Intro\nSome text\n### Sub\nMore text\n## Next\nFinal" =
      [⟨some "Intro", "Some text", 1, none⟩,
       ⟨some "Sub", "", 2, some "Intro"⟩,
       ⟨some "Intro", "More text", 1, none⟩,
       ⟨some "Next", "Final", 1, none⟩] := by
  decide

/-- C3: for every input text, every level-2 Section record produced by
the parser has an empty content string. -/
theorem level2_sections_have_empty_content (text : String) (s : MdSection)
    (h : s ∈ parse_markdown text) (h2 : s.level = 2) : s.content = "" :=
  parseLoop_level2_content_empty _ _ _ _ s h h2

theorem level2_sections_have_empty_content_witness :
    (⟨some "S", "", 2, none⟩ : MdSection) ∈ parse_markdown "x\n### S" ∧
    (⟨some "S", "", 2, none⟩ : MdSection).content = "" :=
  ⟨by decide, level2_sections_have_empty_content "x\n### S" _ (by decide) (by decide)⟩

/-- C6: when the parser meets a fence line, it appends to the current
content a single `[CODE]`/`[/CODE]`-wrapped chunk whose kept lines are
the first `min(N, 15)` lines of the `N`-line block, in original order
(`kept` is a prefix of the block), and resumes scanning after the
closing fence. -/
theorem code_block_keeps_first_15_lines (l : String) (rest : List String)
    (cur : Option String) (content : List String)
    (h : Py.startsWith l "```" = true) :
    ∃ kept : List String,
      parseLoop (l :: rest) .text cur content =
        parseLoop (rest.drop ((codeBlockOf rest).length + 1)) .text cur
          (content ++ [codeChunk kept]) ∧
      kept = (codeBlockOf rest).take 15 ∧
      kept.length = min (codeBlockOf rest).length 15 ∧
      kept <+: codeBlockOf rest := by
  refine ⟨(codeBlockOf rest).take 15, ?_, rfl, ?_, ?_⟩
  · simp only [parseLoop]
    rw [if_neg (show ¬(Py.startsWith l "## " = true) by simp [not_h2_of_fence l h]),
      if_neg (show ¬(Py.startsWith l "### " = true) by simp [not_h3_of_fence l h]),
      if_neg (show ¬(Py.startsWith l "#### " = true) by simp [not_h4_of_fence l h]),
      if_pos h, parseLoop_code_run]
    simp
  · rw [List.length_take, Nat.min_comm]
  · exact List.take_prefix 15 (codeBlockOf rest)

theorem code_block_keeps_first_15_lines_witness :
    Py.startsWith "```python" "```" = true ∧
    ∃ kept : List String,
      parseLoop ["```python", "a", "b", "```", "after"] .text none [] =
        parseLoop (["a", "b", "```", "after"].drop
            ((codeBlockOf ["a", "b", "```", "after"]).length + 1)) .text none
          ([] ++ [codeChunk kept]) ∧
      kept = (codeBlockOf ["a", "b", "```", "after"]).take 15 ∧
      kept.length = min (codeBlockOf ["a", "b", "```", "after"]).length 15 ∧
      kept <+: codeBlockOf ["a", "b", "```", "after"] :=
  ⟨by decide,
    code_block_keeps_first_15_lines "```python" ["a", "b", "```", "after"] none [] (by decide)⟩

/-- C10: a `### ` sub-header reached while no `## ` header has been seen
(current section is `None`) still produces records: pending content is
flushed as a level-1 record with a `None` title, and the level-2 record
carries a `None` parent; parsing always proceeds. -/
theorem sub_header_before_any_header (l : String) (rest : List String)
    (content : List String) (h : Py.startsWith l "### " = true) :
    parseLoop (l :: rest) .text none content =
      (if content.isEmpty then [] else [⟨none, Py.strip (joinNL content), 1, none⟩]) ++
        ⟨some (Py.strip (Py.drop l 4)), "", 2, none⟩ :: parseLoop rest .text none [] := by
  simp only [parseLoop]
  rw [if_neg (show ¬(Py.startsWith l "## " = true) by simp [not_h2_of_h3 l h]), if_pos h]
  rfl

/-- Specification-level single-pass HTML escape of one character, as
the plain-content path of the document renderer should act (and does):
`&` to `&amp;`, `<` to `&lt;`, `>` to `&gt;`, all else unchanged. -/
def escChar (c : Char) : List Char :=
  if c = '&' then "&amp;".data
  else if c = '<' then "&lt;".data
  else if c = '>' then "&gt;".data
  else [c]

/-- Single-pass description of what the code-sentinel path of the
document renderer actually does to one character: `&` alone is escaped
correctly, but `<` and `>` are double-escaped because the ampersand
pass runs after the angle-bracket passes. -/
def codeEscChar (c : Char) : List Char :=
  if c = '&' then "&amp;".data
  else if c = '<' then "&amp;lt;".data
  else if c = '>' then "&amp;gt;".data
  else [c]

theorem replaceAux_single (a : Char) (rep : List Char) :
    ∀ (fuel : Nat) (l : List Char), l.length ≤ fuel →
      Py.replaceAux [a] rep fuel l = l.flatMap (fun c => if c = a then rep else [c]) := by
  intro fuel
  induction fuel with
  | zero =>
    intro l hl
    have : l = [] := List.length_eq_zero.mp (Nat.le_zero.mp hl)
    subst this
    rfl
  | succ fuel ih =>
    intro l hl
    cases l with
    | nil => rfl
    | cons c rest =>
      have hrest : rest.length ≤ fuel := by
        simp only [List.length_cons] at hl
        omega
      by_cases hca : c = a
      · subst hca
        simp only [Py.replaceAux]
        rw [if_pos (by simp [List.isPrefixOf])]
        rw [show (c :: rest).drop [c].length = rest from rfl]
        rw [ih rest hrest, List.flatMap_cons, if_pos rfl]
      · simp only [Py.replaceAux]
        rw [if_neg (show ¬([a].isPrefixOf (c :: rest) = true) by
          simp only [List.isPrefixOf, List.isPrefixOf_nil_left, Bool.and_true, beq_iff_eq]
          exact fun he => hca he.symm)]
        rw [ih rest hrest]
        simp [List.flatMap_cons, hca]

theorem flatMap_infix_of_mem {α β : Type} (l : List α) (c : α) (f : α → List β)
    (h : c ∈ l) : f c <:+: l.flatMap f := by
  obtain ⟨s, t, rfl⟩ := List.append_of_mem h
  refine ⟨s.flatMap f, t.flatMap f, ?_⟩
  simp [List.flatMap_append, List.flatMap_cons]

theorem replace_char_data (s : String) (a : Char) (rep : String) :
    (Py.replace s ⟨[a]⟩ rep).data =
      s.data.flatMap (fun c => if c = a then rep.data else [c]) :=
  replaceAux_single a rep.data s.data.length s.data (Nat.le_refl _)

theorem escape_text_path_data (s : String) :
    (escape_text_path s).data = s.data.flatMap escChar := by
  have hpt : ∀ c : Char,
      (if c = '&' then "&amp;".data else [c]).flatMap
          (fun x => (if x = '<' then "&lt;".data else [x]).flatMap
            (fun y => if y = '>' then "&gt;".data else [y])) = escChar c := by
    intro c
    by_cases h1 : c = '&'
    · subst h1; decide
    · by_cases h2 : c = '<'
      · subst h2; decide
      · by_cases h3 : c = '>'
        · subst h3; decide
        · simp [escChar, h1, h2, h3]
  have e1 : (Py.replace s "&" "&amp;").data =
      s.data.flatMap (fun c => if c = '&' then "&amp;".data else [c]) :=
    replace_char_data s '&' "&amp;"
  have e2 : (Py.replace (Py.replace s "&" "&amp;") "<" "&lt;").data =
      (Py.replace s "&" "&amp;").data.flatMap
        (fun c => if c = '<' then "&lt;".data else [c]) :=
    replace_char_data _ '<' "&lt;"
  have e3 : (escape_text_path s).data =
      (Py.replace (Py.replace s "&" "&amp;") "<" "&lt;").data.flatMap
        (fun c => if c = '>' then "&gt;".data else [c]) :=
    replace_char_data _ '>' "&gt;"
  rw [e3, e2, e1, List.flatMap_assoc, List.flatMap_assoc]
  exact congrArg _ (funext hpt)

theorem escape_code_path_data (s : String) :
    (escape_code_path s).data = s.data.flatMap codeEscChar := by
  have hpt : ∀ c : Char,
      (if c = '<' then "&lt;".data else [c]).flatMap
          (fun x => (if x = '>' then "&gt;".data else [x]).flatMap
            (fun y => if y = '&' then "&amp;".data else [y])) = codeEscChar c := by
    intro c
    by_cases h1 : c = '<'
    · subst h1; decide
    · by_cases h2 : c = '>'
      · subst h2; decide
      · by_cases h3 : c = '&'
        · subst h3; decide
        · simp [codeEscChar, h1, h2, h3]
  have e1 : (Py.replace s "<" "&lt;").data =
      s.data.flatMap (fun c => if c = '<' then "&lt;".data else [c]) :=
    replace_char_data s '<' "&lt;"
  have e2 : (Py.replace (Py.replace s "<" "&lt;") ">" "&gt;").data =
      (Py.replace s "<" "&lt;").data.flatMap
        (fun c => if c = '>' then "&gt;".data else [c]) :=
    replace_char_data _ '>' "&gt;"
  have e3 : (escape_code_path s).data =
      (Py.replace (Py.replace s "<" "&lt;") ">" "&gt;").data.flatMap
        (fun c => if c = '&' then "&amp;".data else [c]) :=
    replace_char_data _ '&' "&amp;"
  rw [e3, e2, e1, List.flatMap_assoc, List.flatMap_assoc]
  exact congrArg _ (funext hpt)

/-- C4 (counterexample): in the code-sentinel path of the document
renderer, a lone `<` is emitted as `&amp;lt;` — it is double-escaped,
and the output does not even contain `&lt;` — because that path escapes
the ampersand after the angle brackets. -/
theorem pdf_code_path_double_escape :
    escape_code_path "<" = "&amp;lt;" ∧
    Py.containsSub (escape_code_path "<") "&lt;" = false := by
  decide

/-- C4 (amended): the plain-content path of the document renderer is
exactly the single-pass per-character escape (`&` to `&amp;`, `<` to
`&lt;`, `>` to `&gt;`), so its output contains the corresponding entity
for each escapable input character and is never double-escaped; the
code-sentinel path, by contrast, is the single pass that sends `&` to
`&amp;` but double-escapes the angle brackets: `<` becomes `&amp;lt;`
and `>` becomes `&amp;gt;`. -/
theorem pdf_escaping_characterization :
    (∀ s : String, (escape_text_path s).data = s.data.flatMap escChar) ∧
    (∀ s : String, (escape_code_path s).data = s.data.flatMap codeEscChar) ∧
    (∀ s : String, '&' ∈ s.data → "&amp;".data <:+: (escape_text_path s).data) ∧
    (∀ s : String, '<' ∈ s.data → "&lt;".data <:+: (escape_text_path s).data) ∧
    (∀ s : String, '>' ∈ s.data → "&gt;".data <:+: (escape_text_path s).data) ∧
    escape_text_path "&" = "&amp;" ∧
    escape_code_path "&" = "&amp;" ∧
    escape_code_path "<" = "&amp;lt;" ∧
    escape_code_path ">" = "&amp;gt;" := by
  refine ⟨escape_text_path_data, escape_code_path_data, ?_, ?_, ?_, by decide, by decide,
    by decide, by decide⟩
  · intro s h
    rw [escape_text_path_data]
    have := flatMap_infix_of_mem s.data '&' escChar h
    simpa [escChar] using this
  · intro s h
    rw [escape_text_path_data]
    have := flatMap_infix_of_mem s.data '<' escChar h
    simpa [escChar] using this
  · intro s h
    rw [escape_text_path_data]
    have := flatMap_infix_of_mem s.data '>' escChar h
    simpa [escChar] using this

theorem pdf_escaping_characterization_witness :
    ('&' ∈ ("a&b" : String).data) ∧ "&amp;".data <:+: (escape_text_path "a&b").data :=
  ⟨by decide, pdf_escaping_characterization.2.2.1 "a&b" (by decide)⟩

/-- C7: when a section's content contains a `[CODE]...[/CODE]` region,
the slide body is exactly the code box holding at most the first 500
characters of the stripped code text (a prefix of it of length at most
500); no other paragraphs are emitted for that section. -/
theorem code_slide_body (content code : String)
    (h : searchCode content = some code) :
    slideBody content = .codeBox (Py.take (Py.strip code) 500) ∧
    Py.len (Py.take (Py.strip code) 500) ≤ 500 ∧
    (Py.take (Py.strip code) 500).data <+: (Py.strip code).data := by
  have hcs : Py.containsSub content "[CODE]" = true := by
    unfold searchCode at h
    unfold Py.containsSub
    rcases hsp : Py.split content "[CODE]" with - | ⟨x, - | ⟨y, rest⟩⟩
    · rw [hsp] at h; simp at h
    · rw [hsp] at h; simp at h
    · simp
  refine ⟨?_, ?_, ?_⟩
  · unfold slideBody
    rw [if_pos hcs, h]
  · simp [Py.len, Py.take, List.length_take]
  · exact List.take_prefix 500 (Py.strip code).data

theorem code_slide_body_witness :
    searchCode "[CODE]\nx\n[/CODE]" = some "\nx\n" ∧
    slideBody "[CODE]\nx\n[/CODE]" = .codeBox "x" := by
  refine ⟨by decide, ?_⟩
  rw [(code_slide_body "[CODE]\nx\n[/CODE]" "\nx\n" (by decide)).1]
  decide

/-- C8: for the input `## A` followed by twelve plain text lines, the
slide renderer produces the fixed title slide and exactly one content
slide whose body has exactly ten paragraphs, one plain paragraph per
line `L01`..`L10`, with `L11` and `L12` dropped; and in general the
non-code slide body consists of the renderings of only the first ten
non-blank content lines, hence never more than ten paragraphs. -/
theorem twelve_line_slide_bodies :
    create_powerpoint
        (parse_markdown "## A\nL01\nL02\nL03\nL04\nL05\nL06\nL07\nL08\nL09\nL10\nL11\nL12") =
      [.titleSlide "Data Access Layer dengan Dapper" "Panduan Lengkap Implementasi Dapper di .NET",
       .contentSlide (some "A") (.paras [.plain "L01", .plain "L02", .plain "L03", .plain "L04",
         .plain "L05", .plain "L06", .plain "L07", .plain "L08", .plain "L09", .plain "L10"])] ∧
    (∀ c : String, Py.containsSub c "[CODE]" = false →
      slideBody c = .paras ((((Py.split c "\n").filter (fun l => Py.strip l != "")).take 10).map
        renderSlideLine) ∧
      ∀ ps : List SlidePara, slideBody c = .paras ps → ps.length ≤ 10) := by
  constructor
  · decide
  · intro c hc
    have hb : slideBody c =
        .paras ((((Py.split c "\n").filter (fun l => Py.strip l != "")).take 10).map
          renderSlideLine) := by
      unfold slideBody
      rw [if_neg (by simp [hc])]
    refine ⟨hb, ?_⟩
    intro ps hps
    rw [hb] at hps
    have := SlideBody.paras.inj hps
    rw [← this]
    simp [List.length_map, List.length_take]

theorem twelve_line_slide_bodies_witness :
    Py.containsSub "x" "[CODE]" = false ∧
    slideBody "x" = .paras ((((Py.split "x" "\n").filter (fun l => Py.strip l != "")).take 10).map
      renderSlideLine) :=
  ⟨by decide, (twelve_line_slide_bodies.2 "x" (by decide)).1⟩

/-- C9: the verifier's exit code is 0 exactly when all three checks
pass and 1 exactly when at least one fails; the slide-deck check fails
exactly when the deck is absent or has fewer than 10 slides, the PDF
check fails exactly when the PDF is absent or its first five bytes are
not `%PDF-`, and the documentation check fails exactly when the file is
absent or one of the three required substrings is missing.  Each
check's verdict depends only on its own file, so one failing check
cannot change any other check's verdict. -/
theorem verifier_exit_characterization (fs : FS) :
    (verifier_main fs = 0 ↔
      verify_powerpoint fs = true ∧ verify_pdf fs = true ∧ verify_documentation fs = true) ∧
    (verifier_main fs = 1 ↔
      (verify_powerpoint fs = false ∨ verify_pdf fs = false ∨
        verify_documentation fs = false)) ∧
    (verify_powerpoint fs = false ↔
      fs.pptxSlides = none ∨ ∃ n, fs.pptxSlides = some n ∧ n < 10) ∧
    (verify_pdf fs = false ↔
      fs.pdfBytes = none ∨ ∃ bs, fs.pdfBytes = some bs ∧ bs.take 5 ≠ pdfMagic) ∧
    (verify_documentation fs = false ↔
      fs.docContent = none ∨ ∃ c, fs.docContent = some c ∧
        ∃ sec ∈ required_sections, Py.containsSub c sec = false) := by
  obtain ⟨p, d, doc⟩ := fs
  refine ⟨?_, ?_, ?_, ?_, ?_⟩
  · unfold verifier_main
    cases hA : verify_powerpoint ⟨p, d, doc⟩ <;>
      cases hB : verify_pdf ⟨p, d, doc⟩ <;>
        cases hC : verify_documentation ⟨p, d, doc⟩ <;>
          simp [hA, hB, hC]
  · unfold verifier_main
    cases hA : verify_powerpoint ⟨p, d, doc⟩ <;>
      cases hB : verify_pdf ⟨p, d, doc⟩ <;>
        cases hC : verify_documentation ⟨p, d, doc⟩ <;>
          simp [hA, hB, hC]
  · cases p <;> simp [verify_powerpoint]
  · cases d <;> simp [verify_pdf]
  · cases doc with
    | none => simp [verify_documentation]
    | some c =>
      cases h1 : Py.containsSub c "File Presentasi" <;>
        cases h2 : Py.containsSub c "Cara Menggunakan" <;>
          cases h3 : Py.containsSub c "Regenerate" <;>
            simp [verify_documentation, required_sections, List.filter_cons, h1, h2, h3]

/-- C5 (counterexample): a line with an indented bullet prefix (two
leading spaces before `- `) is not emitted at outline level 1: the
line is stripped before the bullet checks, so it matches the plain
bullet branch and is emitted at level 0. -/
theorem indented_bullet_counterexample :
    renderSlideLine "  - x" = .bullet 0 "x" ∧ renderSlideLine "  - x" ≠ .bullet 1 "x" := by
  decide

/-- C5 (amended): in the slide renderer's non-code path, a rendered
line whose cleaned (markdown-stripped and whitespace-stripped) form
begins with `- ` or `* ` is emitted at outline level 0 with the
two-character prefix removed, and every other line is emitted as a
plain paragraph of the cleaned text.  No line is ever emitted at
outline level 1: because the line is stripped of leading whitespace
before the checks, the indented-bullet branch is unreachable. -/
theorem slide_line_rendering (line : String) :
    (∀ t : String, renderSlideLine line ≠ .bullet 1 t) ∧
    renderSlideLine line =
      (if Py.startsWith (cleanLine line) "- " || Py.startsWith (cleanLine line) "* " then
        .bullet 0 (Py.drop (cleanLine line) 2)
      else .plain (cleanLine line)) := by
  have hd : Py.startsWith (cleanLine line) "  - " = false := by
    unfold cleanLine
    exact startsWith_strip_ws_false _ "  - " ' ' [' ', '-', ' '] (by decide) (by decide)
  have hs : Py.startsWith (cleanLine line) "  * " = false := by
    unfold cleanLine
    exact startsWith_strip_ws_false _ "  * " ' ' [' ', '*', ' '] (by decide) (by decide)
  constructor
  · intro t
    simp only [renderSlideLine, hd, hs]
    split <;> simp
  · simp only [renderSlideLine, hd, hs]
    simp

theorem slide_line_rendering_witness :
    renderSlideLine "  - y" ≠ SlidePara.bullet 1 "y" ∧
    renderSlideLine "- z" = SlidePara.bullet 0 "z" :=
  ⟨(slide_line_rendering "  - y").1 "y", by decide⟩

theorem sub_header_before_any_header_witness :
    Py.startsWith "### Sub" "### " = true ∧
    parseLoop ["### Sub"] .text none ["text"] =
      (if (["text"] : List String).isEmpty then []
        else [⟨none, Py.strip (joinNL ["text"]), 1, none⟩]) ++
        ⟨some (Py.strip (Py.drop "### Sub" 4)), "", 2, none⟩ :: parseLoop [] .text none [] :=
  ⟨by decide, sub_header_before_any_header "### Sub" [] ["text"] (by decide)⟩

end DotnetPresentations
